import Mathlib

/-! MCObjectFileInfo: the catalog of target object-file sections

A shallow embedding of the class MCObjectFileInfo declared in
include/llvm/MC/MCObjectFileInfo.h.  The class is a flat record with one
pointer member per section, eight scalar members for the exception-handling
encodings and ABI flags, and four private members.  Const member functions
become pure functions of the record; the one non-const accessor,
getEHFrameSection, becomes a state-passing function.

Member functions that the header only declares (InitMCObjectFileInfo, the three
family initialisers and InitEHFrameSection) have no body in this translation
unit; they are modelled from the written specification and marked as such.
-/

namespace llvm

/-- The class MCSection is only forward-declared by the header.  A section
object is represented by its identity (its address). -/
abbrev MCSection := Nat

/-- A value of type const MCSection *; none is the null pointer, which the
catalog uses for a section that has not been set. -/
abbrev SectionHandle := Option MCSection

/-- The private enumeration Environment of MCObjectFileInfo. -/
inductive Environment
  | IsMachO
  | IsELF
  | IsCOFF
deriving DecidableEq, Repr

/-- Modelled from the spec: the enumeration Reloc::Model comes from
llvm/MC/MCCodeGenInfo.h, which is not part of this translation unit.  The
spec lists Static, PIC and DynamicNoPIC and leaves the rest open. -/
inductive Reloc.Model
  | Static
  | PIC
  | DynamicNoPIC
  | Other (tag : Nat)
deriving DecidableEq, Repr

/-- Modelled from the spec: the enumeration CodeModel::Model comes from
llvm/MC/MCCodeGenInfo.h, which is not part of this translation unit.  The
spec lists Small, Medium and Large and leaves the rest open. -/
inductive CodeModel.Model
  | Small
  | Medium
  | Large
  | Other (tag : Nat)
deriving DecidableEq, Repr

/-- One name per section member of the class, in declaration order; the name
is the member name without its Section suffix. -/
inductive Role
  | Text
  | Data
  | BSS
  | ReadOnly
  | StaticCtor
  | StaticDtor
  | LSDA
  | CompactUnwind
  | DwarfAccelNames
  | DwarfAccelObjC
  | DwarfAccelNamespace
  | DwarfAccelTypes
  | DwarfAbbrev
  | DwarfInfo
  | DwarfLine
  | DwarfFrame
  | DwarfPubTypes
  | DwarfDebugInline
  | DwarfStr
  | DwarfLoc
  | DwarfARanges
  | DwarfRanges
  | DwarfMacroInfo
  | TLSExtraData
  | TLSData
  | TLSBSS
  | EHFrame
  | DataRel
  | DataRelLocal
  | DataRelRO
  | DataRelROLocal
  | MergeableConst4
  | MergeableConst8
  | MergeableConst16
  | TLSTLV
  | TLSThreadInit
  | CString
  | UString
  | TextCoal
  | ConstTextCoal
  | ConstData
  | DataCoal
  | DataCommon
  | DataBSS
  | FourByteConstant
  | EightByteConstant
  | SixteenByteConstant
  | LazySymbolPointer
  | NonLazySymbolPointer
  | Drectve
  | PData
  | XData
deriving DecidableEq, Repr

/-- Modelled from the spec: the key under which the section store uniques a
section.  The spec says only that name and attributes of a synthesised section
depend on the family (and on which section is asked for), so the key is that
pair. -/
structure SectionKey where
  family : Environment
  role : Role
deriving DecidableEq, Repr

/-- Modelled from the spec: the class MCContext is only forward-declared by
the header.  Of the context only its section store matters here: the list of
keys interned so far, a section being identified by its position. -/
structure MCContext where
  interned : List SectionKey
deriving DecidableEq, Repr

/-- Modelled from the spec: the section store returns a unique, stable handle
for a key and is idempotent for identical keys.  A key already interned keeps
its position; a new key is appended. -/
def MCContext.getSection (ctx : MCContext) (k : SectionKey) : MCSection × MCContext :=
  if k ∈ ctx.interned then (ctx.interned.indexOf k, ctx)
  else (ctx.interned.length, { interned := ctx.interned ++ [k] })

/-- The data members of class MCObjectFileInfo, in declaration order.  The
unsigned members are natural numbers (no arithmetic is done on them).  The
member Ctx, a pointer to the context the catalog was initialised with, is
represented by the context it points to. -/
structure MCObjectFileInfo where
  CommDirectiveSupportsAlignment : Bool
  SupportsWeakOmittedEHFrame : Bool
  IsFunctionEHFrameSymbolPrivate : Bool
  PersonalityEncoding : Nat
  LSDAEncoding : Nat
  FDEEncoding : Nat
  FDECFIEncoding : Nat
  TTypeEncoding : Nat
  TextSection : SectionHandle
  DataSection : SectionHandle
  BSSSection : SectionHandle
  ReadOnlySection : SectionHandle
  StaticCtorSection : SectionHandle
  StaticDtorSection : SectionHandle
  LSDASection : SectionHandle
  CompactUnwindSection : SectionHandle
  DwarfAccelNamesSection : SectionHandle
  DwarfAccelObjCSection : SectionHandle
  DwarfAccelNamespaceSection : SectionHandle
  DwarfAccelTypesSection : SectionHandle
  DwarfAbbrevSection : SectionHandle
  DwarfInfoSection : SectionHandle
  DwarfLineSection : SectionHandle
  DwarfFrameSection : SectionHandle
  DwarfPubTypesSection : SectionHandle
  DwarfDebugInlineSection : SectionHandle
  DwarfStrSection : SectionHandle
  DwarfLocSection : SectionHandle
  DwarfARangesSection : SectionHandle
  DwarfRangesSection : SectionHandle
  DwarfMacroInfoSection : SectionHandle
  TLSExtraDataSection : SectionHandle
  TLSDataSection : SectionHandle
  TLSBSSSection : SectionHandle
  EHFrameSection : SectionHandle
  DataRelSection : SectionHandle
  DataRelLocalSection : SectionHandle
  DataRelROSection : SectionHandle
  DataRelROLocalSection : SectionHandle
  MergeableConst4Section : SectionHandle
  MergeableConst8Section : SectionHandle
  MergeableConst16Section : SectionHandle
  TLSTLVSection : SectionHandle
  TLSThreadInitSection : SectionHandle
  CStringSection : SectionHandle
  UStringSection : SectionHandle
  TextCoalSection : SectionHandle
  ConstTextCoalSection : SectionHandle
  ConstDataSection : SectionHandle
  DataCoalSection : SectionHandle
  DataCommonSection : SectionHandle
  DataBSSSection : SectionHandle
  FourByteConstantSection : SectionHandle
  EightByteConstantSection : SectionHandle
  SixteenByteConstantSection : SectionHandle
  LazySymbolPointerSection : SectionHandle
  NonLazySymbolPointerSection : SectionHandle
  DrectveSection : SectionHandle
  PDataSection : SectionHandle
  XDataSection : SectionHandle
  Env : Environment
  RelocM : Reloc.Model
  CMModel : CodeModel.Model
  Ctx : MCContext

namespace MCObjectFileInfo

/-- The section member that belongs to a role. -/
def field (r : Role) (self : MCObjectFileInfo) : SectionHandle :=
  match r with
  | .Text => self.TextSection
  | .Data => self.DataSection
  | .BSS => self.BSSSection
  | .ReadOnly => self.ReadOnlySection
  | .StaticCtor => self.StaticCtorSection
  | .StaticDtor => self.StaticDtorSection
  | .LSDA => self.LSDASection
  | .CompactUnwind => self.CompactUnwindSection
  | .DwarfAccelNames => self.DwarfAccelNamesSection
  | .DwarfAccelObjC => self.DwarfAccelObjCSection
  | .DwarfAccelNamespace => self.DwarfAccelNamespaceSection
  | .DwarfAccelTypes => self.DwarfAccelTypesSection
  | .DwarfAbbrev => self.DwarfAbbrevSection
  | .DwarfInfo => self.DwarfInfoSection
  | .DwarfLine => self.DwarfLineSection
  | .DwarfFrame => self.DwarfFrameSection
  | .DwarfPubTypes => self.DwarfPubTypesSection
  | .DwarfDebugInline => self.DwarfDebugInlineSection
  | .DwarfStr => self.DwarfStrSection
  | .DwarfLoc => self.DwarfLocSection
  | .DwarfARanges => self.DwarfARangesSection
  | .DwarfRanges => self.DwarfRangesSection
  | .DwarfMacroInfo => self.DwarfMacroInfoSection
  | .TLSExtraData => self.TLSExtraDataSection
  | .TLSData => self.TLSDataSection
  | .TLSBSS => self.TLSBSSSection
  | .EHFrame => self.EHFrameSection
  | .DataRel => self.DataRelSection
  | .DataRelLocal => self.DataRelLocalSection
  | .DataRelRO => self.DataRelROSection
  | .DataRelROLocal => self.DataRelROLocalSection
  | .MergeableConst4 => self.MergeableConst4Section
  | .MergeableConst8 => self.MergeableConst8Section
  | .MergeableConst16 => self.MergeableConst16Section
  | .TLSTLV => self.TLSTLVSection
  | .TLSThreadInit => self.TLSThreadInitSection
  | .CString => self.CStringSection
  | .UString => self.UStringSection
  | .TextCoal => self.TextCoalSection
  | .ConstTextCoal => self.ConstTextCoalSection
  | .ConstData => self.ConstDataSection
  | .DataCoal => self.DataCoalSection
  | .DataCommon => self.DataCommonSection
  | .DataBSS => self.DataBSSSection
  | .FourByteConstant => self.FourByteConstantSection
  | .EightByteConstant => self.EightByteConstantSection
  | .SixteenByteConstant => self.SixteenByteConstantSection
  | .LazySymbolPointer => self.LazySymbolPointerSection
  | .NonLazySymbolPointer => self.NonLazySymbolPointerSection
  | .Drectve => self.DrectveSection
  | .PData => self.PDataSection
  | .XData => self.XDataSection

/-- Assignment to the section member that belongs to a role. -/
def setField (r : Role) (h : SectionHandle) (self : MCObjectFileInfo) : MCObjectFileInfo :=
  match r with
  | .Text => { self with TextSection := h }
  | .Data => { self with DataSection := h }
  | .BSS => { self with BSSSection := h }
  | .ReadOnly => { self with ReadOnlySection := h }
  | .StaticCtor => { self with StaticCtorSection := h }
  | .StaticDtor => { self with StaticDtorSection := h }
  | .LSDA => { self with LSDASection := h }
  | .CompactUnwind => { self with CompactUnwindSection := h }
  | .DwarfAccelNames => { self with DwarfAccelNamesSection := h }
  | .DwarfAccelObjC => { self with DwarfAccelObjCSection := h }
  | .DwarfAccelNamespace => { self with DwarfAccelNamespaceSection := h }
  | .DwarfAccelTypes => { self with DwarfAccelTypesSection := h }
  | .DwarfAbbrev => { self with DwarfAbbrevSection := h }
  | .DwarfInfo => { self with DwarfInfoSection := h }
  | .DwarfLine => { self with DwarfLineSection := h }
  | .DwarfFrame => { self with DwarfFrameSection := h }
  | .DwarfPubTypes => { self with DwarfPubTypesSection := h }
  | .DwarfDebugInline => { self with DwarfDebugInlineSection := h }
  | .DwarfStr => { self with DwarfStrSection := h }
  | .DwarfLoc => { self with DwarfLocSection := h }
  | .DwarfARanges => { self with DwarfARangesSection := h }
  | .DwarfRanges => { self with DwarfRangesSection := h }
  | .DwarfMacroInfo => { self with DwarfMacroInfoSection := h }
  | .TLSExtraData => { self with TLSExtraDataSection := h }
  | .TLSData => { self with TLSDataSection := h }
  | .TLSBSS => { self with TLSBSSSection := h }
  | .EHFrame => { self with EHFrameSection := h }
  | .DataRel => { self with DataRelSection := h }
  | .DataRelLocal => { self with DataRelLocalSection := h }
  | .DataRelRO => { self with DataRelROSection := h }
  | .DataRelROLocal => { self with DataRelROLocalSection := h }
  | .MergeableConst4 => { self with MergeableConst4Section := h }
  | .MergeableConst8 => { self with MergeableConst8Section := h }
  | .MergeableConst16 => { self with MergeableConst16Section := h }
  | .TLSTLV => { self with TLSTLVSection := h }
  | .TLSThreadInit => { self with TLSThreadInitSection := h }
  | .CString => { self with CStringSection := h }
  | .UString => { self with UStringSection := h }
  | .TextCoal => { self with TextCoalSection := h }
  | .ConstTextCoal => { self with ConstTextCoalSection := h }
  | .ConstData => { self with ConstDataSection := h }
  | .DataCoal => { self with DataCoalSection := h }
  | .DataCommon => { self with DataCommonSection := h }
  | .DataBSS => { self with DataBSSSection := h }
  | .FourByteConstant => { self with FourByteConstantSection := h }
  | .EightByteConstant => { self with EightByteConstantSection := h }
  | .SixteenByteConstant => { self with SixteenByteConstantSection := h }
  | .LazySymbolPointer => { self with LazySymbolPointerSection := h }
  | .NonLazySymbolPointer => { self with NonLazySymbolPointerSection := h }
  | .Drectve => { self with DrectveSection := h }
  | .PData => { self with PDataSection := h }
  | .XData => { self with XDataSection := h }

/-! ## The const accessors -/

def isFunctionEHFrameSymbolPrivate (self : MCObjectFileInfo) : Bool :=
  self.IsFunctionEHFrameSymbolPrivate

def getSupportsWeakOmittedEHFrame (self : MCObjectFileInfo) : Bool :=
  self.SupportsWeakOmittedEHFrame

def getCommDirectiveSupportsAlignment (self : MCObjectFileInfo) : Bool :=
  self.CommDirectiveSupportsAlignment

def getPersonalityEncoding (self : MCObjectFileInfo) : Nat :=
  self.PersonalityEncoding

def getLSDAEncoding (self : MCObjectFileInfo) : Nat :=
  self.LSDAEncoding

def getFDEEncoding (self : MCObjectFileInfo) (CFI : Bool) : Nat :=
  if CFI then self.FDECFIEncoding else self.FDEEncoding

def getTTypeEncoding (self : MCObjectFileInfo) : Nat :=
  self.TTypeEncoding

def getTextSection (self : MCObjectFileInfo) : SectionHandle :=
  self.TextSection

def getDataSection (self : MCObjectFileInfo) : SectionHandle :=
  self.DataSection

def getBSSSection (self : MCObjectFileInfo) : SectionHandle :=
  self.BSSSection

def getStaticCtorSection (self : MCObjectFileInfo) : SectionHandle :=
  self.StaticCtorSection

def getStaticDtorSection (self : MCObjectFileInfo) : SectionHandle :=
  self.StaticDtorSection

def getLSDASection (self : MCObjectFileInfo) : SectionHandle :=
  self.LSDASection

def getCompactUnwindSection (self : MCObjectFileInfo) : SectionHandle :=
  self.CompactUnwindSection

def getDwarfAccelNamesSection (self : MCObjectFileInfo) : SectionHandle :=
  self.DwarfAccelNamesSection

def getDwarfAccelObjCSection (self : MCObjectFileInfo) : SectionHandle :=
  self.DwarfAccelObjCSection

def getDwarfAccelNamespaceSection (self : MCObjectFileInfo) : SectionHandle :=
  self.DwarfAccelNamespaceSection

def getDwarfAccelTypesSection (self : MCObjectFileInfo) : SectionHandle :=
  self.DwarfAccelTypesSection

def getDwarfAbbrevSection (self : MCObjectFileInfo) : SectionHandle :=
  self.DwarfAbbrevSection

def getDwarfInfoSection (self : MCObjectFileInfo) : SectionHandle :=
  self.DwarfInfoSection

def getDwarfLineSection (self : MCObjectFileInfo) : SectionHandle :=
  self.DwarfLineSection

def getDwarfFrameSection (self : MCObjectFileInfo) : SectionHandle :=
  self.DwarfFrameSection

def getDwarfPubTypesSection (self : MCObjectFileInfo) : SectionHandle :=
  self.DwarfPubTypesSection

def getDwarfDebugInlineSection (self : MCObjectFileInfo) : SectionHandle :=
  self.DwarfDebugInlineSection

def getDwarfStrSection (self : MCObjectFileInfo) : SectionHandle :=
  self.DwarfStrSection

def getDwarfLocSection (self : MCObjectFileInfo) : SectionHandle :=
  self.DwarfLocSection

def getDwarfARangesSection (self : MCObjectFileInfo) : SectionHandle :=
  self.DwarfARangesSection

def getDwarfRangesSection (self : MCObjectFileInfo) : SectionHandle :=
  self.DwarfRangesSection

def getDwarfMacroInfoSection (self : MCObjectFileInfo) : SectionHandle :=
  self.DwarfMacroInfoSection

def getTLSExtraDataSection (self : MCObjectFileInfo) : SectionHandle :=
  self.TLSExtraDataSection

def getTLSDataSection (self : MCObjectFileInfo) : SectionHandle :=
  self.TLSDataSection

def getTLSBSSSection (self : MCObjectFileInfo) : SectionHandle :=
  self.TLSBSSSection

def getDataRelSection (self : MCObjectFileInfo) : SectionHandle :=
  self.DataRelSection

def getDataRelLocalSection (self : MCObjectFileInfo) : SectionHandle :=
  self.DataRelLocalSection

def getDataRelROSection (self : MCObjectFileInfo) : SectionHandle :=
  self.DataRelROSection

def getDataRelROLocalSection (self : MCObjectFileInfo) : SectionHandle :=
  self.DataRelROLocalSection

def getMergeableConst4Section (self : MCObjectFileInfo) : SectionHandle :=
  self.MergeableConst4Section

def getMergeableConst8Section (self : MCObjectFileInfo) : SectionHandle :=
  self.MergeableConst8Section

def getMergeableConst16Section (self : MCObjectFileInfo) : SectionHandle :=
  self.MergeableConst16Section

def getTLSTLVSection (self : MCObjectFileInfo) : SectionHandle :=
  self.TLSTLVSection

def getTLSThreadInitSection (self : MCObjectFileInfo) : SectionHandle :=
  self.TLSThreadInitSection

def getCStringSection (self : MCObjectFileInfo) : SectionHandle :=
  self.CStringSection

def getUStringSection (self : MCObjectFileInfo) : SectionHandle :=
  self.UStringSection

def getTextCoalSection (self : MCObjectFileInfo) : SectionHandle :=
  self.TextCoalSection

def getConstTextCoalSection (self : MCObjectFileInfo) : SectionHandle :=
  self.ConstTextCoalSection

def getConstDataSection (self : MCObjectFileInfo) : SectionHandle :=
  self.ConstDataSection

def getDataCoalSection (self : MCObjectFileInfo) : SectionHandle :=
  self.DataCoalSection

def getDataCommonSection (self : MCObjectFileInfo) : SectionHandle :=
  self.DataCommonSection

def getDataBSSSection (self : MCObjectFileInfo) : SectionHandle :=
  self.DataBSSSection

def getFourByteConstantSection (self : MCObjectFileInfo) : SectionHandle :=
  self.FourByteConstantSection

def getEightByteConstantSection (self : MCObjectFileInfo) : SectionHandle :=
  self.EightByteConstantSection

def getSixteenByteConstantSection (self : MCObjectFileInfo) : SectionHandle :=
  self.SixteenByteConstantSection

def getLazySymbolPointerSection (self : MCObjectFileInfo) : SectionHandle :=
  self.LazySymbolPointerSection

def getNonLazySymbolPointerSection (self : MCObjectFileInfo) : SectionHandle :=
  self.NonLazySymbolPointerSection

def getDrectveSection (self : MCObjectFileInfo) : SectionHandle :=
  self.DrectveSection

def getPDataSection (self : MCObjectFileInfo) : SectionHandle :=
  self.PDataSection

def getXDataSection (self : MCObjectFileInfo) : SectionHandle :=
  self.XDataSection

end MCObjectFileInfo

/-- The const section accessors of the class, one constructor per public
member function of the form const MCSection *getXSection() const, in
declaration order. -/
inductive Getter
  | getTextSection
  | getDataSection
  | getBSSSection
  | getStaticCtorSection
  | getStaticDtorSection
  | getLSDASection
  | getCompactUnwindSection
  | getDwarfAccelNamesSection
  | getDwarfAccelObjCSection
  | getDwarfAccelNamespaceSection
  | getDwarfAccelTypesSection
  | getDwarfAbbrevSection
  | getDwarfInfoSection
  | getDwarfLineSection
  | getDwarfFrameSection
  | getDwarfPubTypesSection
  | getDwarfDebugInlineSection
  | getDwarfStrSection
  | getDwarfLocSection
  | getDwarfARangesSection
  | getDwarfRangesSection
  | getDwarfMacroInfoSection
  | getTLSExtraDataSection
  | getTLSDataSection
  | getTLSBSSSection
  | getDataRelSection
  | getDataRelLocalSection
  | getDataRelROSection
  | getDataRelROLocalSection
  | getMergeableConst4Section
  | getMergeableConst8Section
  | getMergeableConst16Section
  | getTLSTLVSection
  | getTLSThreadInitSection
  | getCStringSection
  | getUStringSection
  | getTextCoalSection
  | getConstTextCoalSection
  | getConstDataSection
  | getDataCoalSection
  | getDataCommonSection
  | getDataBSSSection
  | getFourByteConstantSection
  | getEightByteConstantSection
  | getSixteenByteConstantSection
  | getLazySymbolPointerSection
  | getNonLazySymbolPointerSection
  | getDrectveSection
  | getPDataSection
  | getXDataSection
deriving DecidableEq, Repr

namespace Getter

/-- Calling a const section accessor. -/
def run (g : Getter) (self : MCObjectFileInfo) : SectionHandle :=
  match g with
  | .getTextSection => self.getTextSection
  | .getDataSection => self.getDataSection
  | .getBSSSection => self.getBSSSection
  | .getStaticCtorSection => self.getStaticCtorSection
  | .getStaticDtorSection => self.getStaticDtorSection
  | .getLSDASection => self.getLSDASection
  | .getCompactUnwindSection => self.getCompactUnwindSection
  | .getDwarfAccelNamesSection => self.getDwarfAccelNamesSection
  | .getDwarfAccelObjCSection => self.getDwarfAccelObjCSection
  | .getDwarfAccelNamespaceSection => self.getDwarfAccelNamespaceSection
  | .getDwarfAccelTypesSection => self.getDwarfAccelTypesSection
  | .getDwarfAbbrevSection => self.getDwarfAbbrevSection
  | .getDwarfInfoSection => self.getDwarfInfoSection
  | .getDwarfLineSection => self.getDwarfLineSection
  | .getDwarfFrameSection => self.getDwarfFrameSection
  | .getDwarfPubTypesSection => self.getDwarfPubTypesSection
  | .getDwarfDebugInlineSection => self.getDwarfDebugInlineSection
  | .getDwarfStrSection => self.getDwarfStrSection
  | .getDwarfLocSection => self.getDwarfLocSection
  | .getDwarfARangesSection => self.getDwarfARangesSection
  | .getDwarfRangesSection => self.getDwarfRangesSection
  | .getDwarfMacroInfoSection => self.getDwarfMacroInfoSection
  | .getTLSExtraDataSection => self.getTLSExtraDataSection
  | .getTLSDataSection => self.getTLSDataSection
  | .getTLSBSSSection => self.getTLSBSSSection
  | .getDataRelSection => self.getDataRelSection
  | .getDataRelLocalSection => self.getDataRelLocalSection
  | .getDataRelROSection => self.getDataRelROSection
  | .getDataRelROLocalSection => self.getDataRelROLocalSection
  | .getMergeableConst4Section => self.getMergeableConst4Section
  | .getMergeableConst8Section => self.getMergeableConst8Section
  | .getMergeableConst16Section => self.getMergeableConst16Section
  | .getTLSTLVSection => self.getTLSTLVSection
  | .getTLSThreadInitSection => self.getTLSThreadInitSection
  | .getCStringSection => self.getCStringSection
  | .getUStringSection => self.getUStringSection
  | .getTextCoalSection => self.getTextCoalSection
  | .getConstTextCoalSection => self.getConstTextCoalSection
  | .getConstDataSection => self.getConstDataSection
  | .getDataCoalSection => self.getDataCoalSection
  | .getDataCommonSection => self.getDataCommonSection
  | .getDataBSSSection => self.getDataBSSSection
  | .getFourByteConstantSection => self.getFourByteConstantSection
  | .getEightByteConstantSection => self.getEightByteConstantSection
  | .getSixteenByteConstantSection => self.getSixteenByteConstantSection
  | .getLazySymbolPointerSection => self.getLazySymbolPointerSection
  | .getNonLazySymbolPointerSection => self.getNonLazySymbolPointerSection
  | .getDrectveSection => self.getDrectveSection
  | .getPDataSection => self.getPDataSection
  | .getXDataSection => self.getXDataSection

/-- The role an accessor is named after: getXSection is named after X. -/
def role (g : Getter) : Role :=
  match g with
  | .getTextSection => .Text
  | .getDataSection => .Data
  | .getBSSSection => .BSS
  | .getStaticCtorSection => .StaticCtor
  | .getStaticDtorSection => .StaticDtor
  | .getLSDASection => .LSDA
  | .getCompactUnwindSection => .CompactUnwind
  | .getDwarfAccelNamesSection => .DwarfAccelNames
  | .getDwarfAccelObjCSection => .DwarfAccelObjC
  | .getDwarfAccelNamespaceSection => .DwarfAccelNamespace
  | .getDwarfAccelTypesSection => .DwarfAccelTypes
  | .getDwarfAbbrevSection => .DwarfAbbrev
  | .getDwarfInfoSection => .DwarfInfo
  | .getDwarfLineSection => .DwarfLine
  | .getDwarfFrameSection => .DwarfFrame
  | .getDwarfPubTypesSection => .DwarfPubTypes
  | .getDwarfDebugInlineSection => .DwarfDebugInline
  | .getDwarfStrSection => .DwarfStr
  | .getDwarfLocSection => .DwarfLoc
  | .getDwarfARangesSection => .DwarfARanges
  | .getDwarfRangesSection => .DwarfRanges
  | .getDwarfMacroInfoSection => .DwarfMacroInfo
  | .getTLSExtraDataSection => .TLSExtraData
  | .getTLSDataSection => .TLSData
  | .getTLSBSSSection => .TLSBSS
  | .getDataRelSection => .DataRel
  | .getDataRelLocalSection => .DataRelLocal
  | .getDataRelROSection => .DataRelRO
  | .getDataRelROLocalSection => .DataRelROLocal
  | .getMergeableConst4Section => .MergeableConst4
  | .getMergeableConst8Section => .MergeableConst8
  | .getMergeableConst16Section => .MergeableConst16
  | .getTLSTLVSection => .TLSTLV
  | .getTLSThreadInitSection => .TLSThreadInit
  | .getCStringSection => .CString
  | .getUStringSection => .UString
  | .getTextCoalSection => .TextCoal
  | .getConstTextCoalSection => .ConstTextCoal
  | .getConstDataSection => .ConstData
  | .getDataCoalSection => .DataCoal
  | .getDataCommonSection => .DataCommon
  | .getDataBSSSection => .DataBSS
  | .getFourByteConstantSection => .FourByteConstant
  | .getEightByteConstantSection => .EightByteConstant
  | .getSixteenByteConstantSection => .SixteenByteConstant
  | .getLazySymbolPointerSection => .LazySymbolPointer
  | .getNonLazySymbolPointerSection => .NonLazySymbolPointer
  | .getDrectveSection => .Drectve
  | .getPDataSection => .PData
  | .getXDataSection => .XData

end Getter

/-- The accessor named after a role, when the class has one. -/
def Role.getter (r : Role) : Option Getter :=
  match r with
  | .Text => some .getTextSection
  | .Data => some .getDataSection
  | .BSS => some .getBSSSection
  | .ReadOnly => none
  | .StaticCtor => some .getStaticCtorSection
  | .StaticDtor => some .getStaticDtorSection
  | .LSDA => some .getLSDASection
  | .CompactUnwind => some .getCompactUnwindSection
  | .DwarfAccelNames => some .getDwarfAccelNamesSection
  | .DwarfAccelObjC => some .getDwarfAccelObjCSection
  | .DwarfAccelNamespace => some .getDwarfAccelNamespaceSection
  | .DwarfAccelTypes => some .getDwarfAccelTypesSection
  | .DwarfAbbrev => some .getDwarfAbbrevSection
  | .DwarfInfo => some .getDwarfInfoSection
  | .DwarfLine => some .getDwarfLineSection
  | .DwarfFrame => some .getDwarfFrameSection
  | .DwarfPubTypes => some .getDwarfPubTypesSection
  | .DwarfDebugInline => some .getDwarfDebugInlineSection
  | .DwarfStr => some .getDwarfStrSection
  | .DwarfLoc => some .getDwarfLocSection
  | .DwarfARanges => some .getDwarfARangesSection
  | .DwarfRanges => some .getDwarfRangesSection
  | .DwarfMacroInfo => some .getDwarfMacroInfoSection
  | .TLSExtraData => some .getTLSExtraDataSection
  | .TLSData => some .getTLSDataSection
  | .TLSBSS => some .getTLSBSSSection
  | .EHFrame => none
  | .DataRel => some .getDataRelSection
  | .DataRelLocal => some .getDataRelLocalSection
  | .DataRelRO => some .getDataRelROSection
  | .DataRelROLocal => some .getDataRelROLocalSection
  | .MergeableConst4 => some .getMergeableConst4Section
  | .MergeableConst8 => some .getMergeableConst8Section
  | .MergeableConst16 => some .getMergeableConst16Section
  | .TLSTLV => some .getTLSTLVSection
  | .TLSThreadInit => some .getTLSThreadInitSection
  | .CString => some .getCStringSection
  | .UString => some .getUStringSection
  | .TextCoal => some .getTextCoalSection
  | .ConstTextCoal => some .getConstTextCoalSection
  | .ConstData => some .getConstDataSection
  | .DataCoal => some .getDataCoalSection
  | .DataCommon => some .getDataCommonSection
  | .DataBSS => some .getDataBSSSection
  | .FourByteConstant => some .getFourByteConstantSection
  | .EightByteConstant => some .getEightByteConstantSection
  | .SixteenByteConstant => some .getSixteenByteConstantSection
  | .LazySymbolPointer => some .getLazySymbolPointerSection
  | .NonLazySymbolPointer => some .getNonLazySymbolPointerSection
  | .Drectve => some .getDrectveSection
  | .PData => some .getPDataSection
  | .XData => some .getXDataSection

/-- Every role, in declaration order. -/
def Role.all : List Role :=
  [.Text, .Data, .BSS, .ReadOnly,
   .StaticCtor, .StaticDtor, .LSDA, .CompactUnwind,
   .DwarfAccelNames, .DwarfAccelObjC, .DwarfAccelNamespace, .DwarfAccelTypes,
   .DwarfAbbrev, .DwarfInfo, .DwarfLine, .DwarfFrame,
   .DwarfPubTypes, .DwarfDebugInline, .DwarfStr, .DwarfLoc,
   .DwarfARanges, .DwarfRanges, .DwarfMacroInfo, .TLSExtraData,
   .TLSData, .TLSBSS, .EHFrame, .DataRel,
   .DataRelLocal, .DataRelRO, .DataRelROLocal, .MergeableConst4,
   .MergeableConst8, .MergeableConst16, .TLSTLV, .TLSThreadInit,
   .CString, .UString, .TextCoal, .ConstTextCoal,
   .ConstData, .DataCoal, .DataCommon, .DataBSS,
   .FourByteConstant, .EightByteConstant, .SixteenByteConstant, .LazySymbolPointer,
   .NonLazySymbolPointer, .Drectve, .PData, .XData]


/-! ## Grouping of the section members

The header declares the section members in blocks, each under its own
comment; the grouping below follows those blocks. -/

/-- The blocks of section members in the header. -/
inductive RoleGroup
  | common
  | dwarfAccel
  | dwarfDebug
  | tlsExtra
  | tls
  | elfOnly
  | machoOnly
  | coffOnly
deriving DecidableEq, Repr

/-- The block a section member is declared in: the members before the Dwarf
blocks together with EHFrameSection are common; then come the block of
accelerator tables, the block headed Dwarf sections for debug info, the
extra TLS data section, the two TLS sections, and the blocks headed ELF
specific sections, MachO specific sections and COFF specific sections. -/
def Role.group (r : Role) : RoleGroup :=
  match r with
  | .Text | .Data | .BSS | .ReadOnly | .StaticCtor | .StaticDtor | .LSDA
  | .CompactUnwind | .EHFrame => .common
  | .DwarfAccelNames | .DwarfAccelObjC | .DwarfAccelNamespace | .DwarfAccelTypes => .dwarfAccel
  | .DwarfAbbrev | .DwarfInfo | .DwarfLine | .DwarfFrame | .DwarfPubTypes
  | .DwarfDebugInline | .DwarfStr | .DwarfLoc | .DwarfARanges | .DwarfRanges
  | .DwarfMacroInfo => .dwarfDebug
  | .TLSExtraData => .tlsExtra
  | .TLSData | .TLSBSS => .tls
  | .DataRel | .DataRelLocal | .DataRelRO | .DataRelROLocal | .MergeableConst4
  | .MergeableConst8 | .MergeableConst16 => .elfOnly
  | .TLSTLV | .TLSThreadInit | .CString | .UString | .TextCoal | .ConstTextCoal
  | .ConstData | .DataCoal | .DataCommon | .DataBSS | .FourByteConstant
  | .EightByteConstant | .SixteenByteConstant | .LazySymbolPointer
  | .NonLazySymbolPointer => .machoOnly
  | .Drectve | .PData | .XData => .coffOnly

/-- The section members of a block. -/
def rolesIn (g : RoleGroup) : List Role :=
  Role.all.filter (fun r => decide (r.group = g))

/-- How many section members a block has. -/
def roleCount (g : RoleGroup) : Nat :=
  (rolesIn g).length

/-! ## The lazily initialised EH frame section -/

/-- What a call of a member function yields: the returned value, the object
after the call, and how many times the call invoked InitEHFrameSection. -/
structure Outcome (α : Type) where
  ret : α
  state : MCObjectFileInfo
  ehInits : Nat

namespace MCObjectFileInfo

/-- Modelled from the spec: the private member function InitEHFrameSection is
only declared by the header.  By the spec it synthesises the section now, with
name and attributes that depend only on the family, through the section store,
and caches it in the EHFrameSection member. -/
def InitEHFrameSection (self : MCObjectFileInfo) : MCObjectFileInfo :=
  let r := self.Ctx.getSection { family := self.Env, role := .EHFrame }
  { self with EHFrameSection := some r.1, Ctx := r.2 }

/-- The accessor getEHFrameSection, the only non-const accessor:
if (!EHFrameSection) InitEHFrameSection(); return EHFrameSection; -/
def getEHFrameSection (self : MCObjectFileInfo) : Outcome SectionHandle :=
  if self.EHFrameSection = none then
    let self1 := self.InitEHFrameSection
    { ret := self1.EHFrameSection, state := self1, ehInits := 1 }
  else
    { ret := self.EHFrameSection, state := self, ehInits := 0 }

end MCObjectFileInfo

/-! ## The public query interface as a whole -/

/-- A value returned by a public accessor. -/
inductive Value
  | flag (b : Bool)
  | encoding (e : Nat)
  | handle (h : SectionHandle)
deriving DecidableEq, Repr

/-- A call of a public accessor of the class: the three ABI-flag accessors,
the four encoding accessors, the const section accessors and
getEHFrameSection. -/
inductive Query
  | isFunctionEHFrameSymbolPrivate
  | getSupportsWeakOmittedEHFrame
  | getCommDirectiveSupportsAlignment
  | getPersonalityEncoding
  | getLSDAEncoding
  | getFDEEncoding (CFI : Bool)
  | getTTypeEncoding
  | getSection (g : Getter)
  | getEHFrameSection
deriving DecidableEq, Repr

/-- An outcome of a const member function: the object is the one it was called
on and InitEHFrameSection is not invoked. -/
def constCall (self : MCObjectFileInfo) (v : Value) : Outcome Value :=
  { ret := v, state := self, ehInits := 0 }

/-- Performing one query on a catalog. -/
def exec (q : Query) (self : MCObjectFileInfo) : Outcome Value :=
  match q with
  | .isFunctionEHFrameSymbolPrivate => constCall self (.flag self.isFunctionEHFrameSymbolPrivate)
  | .getSupportsWeakOmittedEHFrame => constCall self (.flag self.getSupportsWeakOmittedEHFrame)
  | .getCommDirectiveSupportsAlignment =>
      constCall self (.flag self.getCommDirectiveSupportsAlignment)
  | .getPersonalityEncoding => constCall self (.encoding self.getPersonalityEncoding)
  | .getLSDAEncoding => constCall self (.encoding self.getLSDAEncoding)
  | .getFDEEncoding CFI => constCall self (.encoding (self.getFDEEncoding CFI))
  | .getTTypeEncoding => constCall self (.encoding self.getTTypeEncoding)
  | .getSection g => constCall self (.handle (g.run self))
  | .getEHFrameSection =>
      let o := self.getEHFrameSection
      { ret := .handle o.ret, state := o.state, ehInits := o.ehInits }

/-- Performing a sequence of queries, one after the other; the result is the
catalog after the last one. -/
def execAll (qs : List Query) (self : MCObjectFileInfo) : MCObjectFileInfo :=
  qs.foldl (fun s q => (exec q s).state) self

/-! ## Concrete catalogs -/

/-- A catalog all of whose section members hold the same handle, with all
encodings zero and all flags false. -/
def MCObjectFileInfo.uniform (h : SectionHandle) (env : Environment) (RM : Reloc.Model)
    (CM : CodeModel.Model) (ctx : MCContext) : MCObjectFileInfo where
  CommDirectiveSupportsAlignment := false
  SupportsWeakOmittedEHFrame := false
  IsFunctionEHFrameSymbolPrivate := false
  PersonalityEncoding := 0
  LSDAEncoding := 0
  FDEEncoding := 0
  FDECFIEncoding := 0
  TTypeEncoding := 0
  TextSection := h
  DataSection := h
  BSSSection := h
  ReadOnlySection := h
  StaticCtorSection := h
  StaticDtorSection := h
  LSDASection := h
  CompactUnwindSection := h
  DwarfAccelNamesSection := h
  DwarfAccelObjCSection := h
  DwarfAccelNamespaceSection := h
  DwarfAccelTypesSection := h
  DwarfAbbrevSection := h
  DwarfInfoSection := h
  DwarfLineSection := h
  DwarfFrameSection := h
  DwarfPubTypesSection := h
  DwarfDebugInlineSection := h
  DwarfStrSection := h
  DwarfLocSection := h
  DwarfARangesSection := h
  DwarfRangesSection := h
  DwarfMacroInfoSection := h
  TLSExtraDataSection := h
  TLSDataSection := h
  TLSBSSSection := h
  EHFrameSection := h
  DataRelSection := h
  DataRelLocalSection := h
  DataRelROSection := h
  DataRelROLocalSection := h
  MergeableConst4Section := h
  MergeableConst8Section := h
  MergeableConst16Section := h
  TLSTLVSection := h
  TLSThreadInitSection := h
  CStringSection := h
  UStringSection := h
  TextCoalSection := h
  ConstTextCoalSection := h
  ConstDataSection := h
  DataCoalSection := h
  DataCommonSection := h
  DataBSSSection := h
  FourByteConstantSection := h
  EightByteConstantSection := h
  SixteenByteConstantSection := h
  LazySymbolPointerSection := h
  NonLazySymbolPointerSection := h
  DrectveSection := h
  PDataSection := h
  XDataSection := h
  Env := env
  RelocM := RM
  CMModel := CM
  Ctx := ctx

/-- An ELF catalog in which TextSection is set and every other section member,
EHFrameSection included, is unset. -/
def textOnlyCatalog : MCObjectFileInfo :=
  { MCObjectFileInfo.uniform none .IsELF .Static .Small { interned := [] } with
    TextSection := some 3 }

/-- An ELF catalog in which ReadOnlySection holds section 1 and every other
section member holds section 0. -/
def readOnlyProbe : MCObjectFileInfo :=
  { MCObjectFileInfo.uniform (some 0) .IsELF .Static .Small { interned := [] } with
    ReadOnlySection := some 1 }

/-! ## Initialisation

The header declares InitMCObjectFileInfo and the three family initialisers but
holds none of their bodies.  They are modelled here from the written
specification of the catalog. -/

/-- Modelled from the spec: the result of the encoding policy, which the spec
calls EncodingSet: the encoding values and the three ABI flags.  The class has
a fifth encoding member, TTypeEncoding, which the record carries as well. -/
structure EncodingSet where
  PersonalityEncoding : Nat
  LSDAEncoding : Nat
  FDEEncoding : Nat
  FDECFIEncoding : Nat
  TTypeEncoding : Nat
  CommDirectiveSupportsAlignment : Bool
  SupportsWeakOmittedEHFrame : Bool
  IsFunctionEHFrameSymbolPrivate : Bool
deriving DecidableEq, Repr

/-- Modelled from the spec: the encoding policy is a total mapping from family
and relocation model to an EncodingSet; its values are not given by the spec
and are taken as an input, together with the sentinel for no encoding. -/
structure EncodingPolicy where
  encodings : Environment → Reloc.Model → EncodingSet
  noEncoding : Nat

/-- Modelled from the spec: the class Triple is only forward-declared by the
header and parsing is left to a collaborator.  A parsed triple exposes its
object-format field (absent when the triple is malformed or not recognised) and
answers the two capability queries the family initialisers make: whether the
deployment target supports TLS and whether the architecture defines a compact
unwind format. -/
structure Triple where
  objectFormat : Option Environment
  tlsSupported : Bool
  hasCompactUnwind : Bool
deriving DecidableEq, Repr

/-- Modelled from the spec: the two precondition violations of initialisation
the spec names as fatal, a triple without a recognised object format and a
second initialisation of the same catalog. -/
inductive InitError
  | configurationError
  | doubleInitialization
deriving DecidableEq, Repr

namespace MCObjectFileInfo

/-- Modelled from the spec: storing the result of the encoding policy in the
encoding and flag members. -/
def withEncodings (enc : EncodingSet) (self : MCObjectFileInfo) : MCObjectFileInfo :=
  { self with
    CommDirectiveSupportsAlignment := enc.CommDirectiveSupportsAlignment
    SupportsWeakOmittedEHFrame := enc.SupportsWeakOmittedEHFrame
    IsFunctionEHFrameSymbolPrivate := enc.IsFunctionEHFrameSymbolPrivate
    PersonalityEncoding := enc.PersonalityEncoding
    LSDAEncoding := enc.LSDAEncoding
    FDEEncoding := enc.FDEEncoding
    FDECFIEncoding := enc.FDECFIEncoding
    TTypeEncoding := enc.TTypeEncoding }

/-- Modelled from the spec: populating one role.  The section is obtained from
the section store under the key of the family and the role, and its handle is
stored in the member of that role. -/
def define (r : Role) (self : MCObjectFileInfo) : MCObjectFileInfo :=
  let p := self.Ctx.getSection { family := self.Env, role := r }
  setField r (some p.1) { self with Ctx := p.2 }

/-- Modelled from the spec: populating a list of roles, one after the other. -/
def defineAll (rs : List Role) (self : MCObjectFileInfo) : MCObjectFileInfo :=
  rs.foldl (fun s r => s.define r) self

end MCObjectFileInfo

/-- Modelled from the spec: the common roles every family defines: the roles
outside the three family-specific blocks, that is the named common roles and
the Dwarf accelerator-table and Dwarf debug roles, except the roles with a rule
of their own (EHFrame is deferred, CompactUnwind depends on the architecture,
the TLS roles depend on the family and the target). -/
def alwaysCommonRoles : List Role :=
  [.Text, .Data, .BSS, .ReadOnly, .StaticCtor, .StaticDtor, .LSDA]
    ++ rolesIn .dwarfAccel ++ rolesIn .dwarfDebug

/-- Modelled from the spec: the TLS-specific roles, that is the TLS-extra role
and the two TLS roles. -/
def tlsRoles : List Role :=
  rolesIn .tlsExtra ++ rolesIn .tls

/-- Modelled from the spec: the roles the MachO initialiser populates: the
MachO-only roles and the common roles always, the TLS roles only when the
deployment target supports TLS, CompactUnwind only when the architecture has a
compact unwind format. -/
def machORoles (T : Triple) : List Role :=
  alwaysCommonRoles ++ rolesIn .machoOnly
    ++ (if T.tlsSupported then tlsRoles else [])
    ++ (if T.hasCompactUnwind then [.CompactUnwind] else [])

/-- Modelled from the spec: the roles the ELF initialiser populates: the
ELF-only roles, the common roles, and always the TLS roles. -/
def elfRoles : List Role :=
  alwaysCommonRoles ++ rolesIn .elfOnly ++ tlsRoles

/-- Modelled from the spec: the roles the COFF initialiser populates: the
COFF-only roles and the common roles; the TLS-specific roles and compact unwind
do not exist under COFF and stay unset. -/
def coffRoles : List Role :=
  alwaysCommonRoles ++ rolesIn .coffOnly

namespace MCObjectFileInfo

/-- Modelled from the spec: the MachO family initialiser, whose body is not in
the header.  It populates the MachO roles; the comm directive does not support
alignment by the legacy default of the family. -/
def InitMachOMCObjectFileInfo (T : Triple) (self : MCObjectFileInfo) : MCObjectFileInfo :=
  { self.defineAll (machORoles T) with CommDirectiveSupportsAlignment := false }

/-- Modelled from the spec: the ELF family initialiser, whose body is not in
the header.  It populates the ELF roles and sets CommDirectiveSupportsAlignment
unconditionally. -/
def InitELFMCObjectFileInfo (_T : Triple) (self : MCObjectFileInfo) : MCObjectFileInfo :=
  { self.defineAll elfRoles with CommDirectiveSupportsAlignment := true }

/-- Modelled from the spec: the COFF family initialiser, whose body is not in
the header.  It populates the COFF roles and forces the encoding values to the
sentinel for no encoding. -/
def InitCOFFMCObjectFileInfo (P : EncodingPolicy) (_T : Triple) (self : MCObjectFileInfo) :
    MCObjectFileInfo :=
  { self.defineAll coffRoles with
    PersonalityEncoding := P.noEncoding
    LSDAEncoding := P.noEncoding
    FDEEncoding := P.noEncoding
    FDECFIEncoding := P.noEncoding
    TTypeEncoding := P.noEncoding }

/-- Modelled from the spec: the member function InitMCObjectFileInfo, whose
body is not in the header.  As declared, it is a void member function of the
catalog with the four arguments triple, relocation model, code model and
context (the encoding policy stands for code that is absent as well).  A triple
without a recognised object format is fatal.  Otherwise the family is taken
from the triple, the relocation model, code model and context are stored, the
encodings come from the policy, every role starts unset, and the initialiser of
the family populates its roles.  Every member is assigned, so the result does
not depend on what the members held before the call.  The class has no member
that records an initialisation, and none is added here: the model has nothing
to recognise a second call by. -/
def InitMCObjectFileInfo (_self : MCObjectFileInfo) (P : EncodingPolicy) (TT : Triple)
    (RM : Reloc.Model) (CM : CodeModel.Model) (ctx : MCContext) :
    Except InitError MCObjectFileInfo :=
  match TT.objectFormat with
  | none => .error .configurationError
  | some env =>
    let fresh := (uniform none env RM CM ctx).withEncodings (P.encodings env RM)
    match env with
    | .IsMachO => .ok (fresh.InitMachOMCObjectFileInfo TT)
    | .IsELF => .ok (fresh.InitELFMCObjectFileInfo TT)
    | .IsCOFF => .ok (fresh.InitCOFFMCObjectFileInfo P TT)

end MCObjectFileInfo

/-- Modelled from the spec: whether a role is defined for a family, given the
capabilities of the target; every role is classified.  The named common roles
other than EHFrame and CompactUnwind and the Dwarf roles are defined for every
family; the roles of a family-specific block for that family; the TLS-specific
roles under ELF and, when the deployment target supports TLS, under MachO;
CompactUnwind under MachO when the architecture has the format.  EHFrame,
being deferred, is not defined by initialisation. -/
def definedFor (T : Triple) (env : Environment) (r : Role) : Bool :=
  match r.group with
  | .common =>
    match r with
    | .EHFrame => false
    | .CompactUnwind => decide (env = .IsMachO) && T.hasCompactUnwind
    | _ => true
  | .dwarfAccel | .dwarfDebug => true
  | .tls | .tlsExtra =>
    match env with
    | .IsMachO => T.tlsSupported
    | .IsELF => true
    | .IsCOFF => false
  | .elfOnly => decide (env = .IsELF)
  | .machoOnly => decide (env = .IsMachO)
  | .coffOnly => decide (env = .IsCOFF)

/-- Whether a role belongs only to families other than the given one: the
roles of the blocks specific to another family; under COFF the TLS-specific
roles (the header marks the TLS sections as ELF and MachO only); outside MachO
the CompactUnwind role. -/
def foreignTo (env : Environment) (r : Role) : Bool :=
  match r.group with
  | .elfOnly => decide (env ≠ .IsELF)
  | .machoOnly => decide (env ≠ .IsMachO)
  | .coffOnly => decide (env ≠ .IsCOFF)
  | .tls | .tlsExtra => decide (env = .IsCOFF)
  | .common =>
    match r with
    | .CompactUnwind => decide (env ≠ .IsMachO)
    | _ => false
  | .dwarfAccel | .dwarfDebug => false

/-! ## A concrete policy, triples and initialisations -/

/-- An encoding set with all values zero and all flags false. -/
def EncodingSet.zero : EncodingSet :=
  { PersonalityEncoding := 0, LSDAEncoding := 0, FDEEncoding := 0, FDECFIEncoding := 0,
    TTypeEncoding := 0, CommDirectiveSupportsAlignment := false,
    SupportsWeakOmittedEHFrame := false, IsFunctionEHFrameSymbolPrivate := false }

/-- A policy that answers the zero encoding set everywhere, with 255 as the
sentinel for no encoding. -/
def zeroPolicy : EncodingPolicy :=
  { encodings := fun _ _ => EncodingSet.zero, noEncoding := 255 }

/-- A parsed ELF triple. -/
def elfTriple : Triple :=
  { objectFormat := some .IsELF, tlsSupported := true, hasCompactUnwind := false }

namespace MCObjectFileInfo

theorem field_InitEHFrameSection_EHFrame (s : MCObjectFileInfo) :
    (field .EHFrame s.InitEHFrameSection).isSome = true := rfl

theorem field_InitEHFrameSection_of_ne (r : Role) (s : MCObjectFileInfo)
    (hr : r ≠ .EHFrame) : field r s.InitEHFrameSection = field r s := by
  cases r <;> first | rfl | exact absurd rfl hr

theorem getEHFrameSection_of_unset (s : MCObjectFileInfo) (h : s.EHFrameSection = none) :
    s.getEHFrameSection =
      { ret := s.InitEHFrameSection.EHFrameSection, state := s.InitEHFrameSection,
        ehInits := 1 } := by
  simp [getEHFrameSection, h]

theorem getEHFrameSection_of_set (s : MCObjectFileInfo) (h : s.EHFrameSection ≠ none) :
    s.getEHFrameSection = { ret := s.EHFrameSection, state := s, ehInits := 0 } := by
  simp [getEHFrameSection, h]

end MCObjectFileInfo

open MCObjectFileInfo

theorem exec_const (q : Query) (s : MCObjectFileInfo) (hq : q ≠ .getEHFrameSection) :
    (exec q s).state = s ∧ (exec q s).ehInits = 0 := by
  cases q <;> first | exact ⟨rfl, rfl⟩ | exact absurd rfl hq

theorem field_exec_of_set (q : Query) (s : MCObjectFileInfo) (r : Role) (h : MCSection)
    (hset : field r s = some h) : field r (exec q s).state = some h := by
  by_cases hq : q = .getEHFrameSection
  · subst hq
    by_cases hu : s.EHFrameSection = none
    · have hr : r ≠ .EHFrame := by
        intro hr
        subst hr
        have : field .EHFrame s = none := hu
        rw [this] at hset
        cases hset
      simp only [exec, getEHFrameSection_of_unset s hu]
      rw [field_InitEHFrameSection_of_ne r s hr]
      exact hset
    · simp only [exec, getEHFrameSection_of_set s hu]
      exact hset
  · rw [(exec_const q s hq).1]
    exact hset

theorem execAll_of_const (qs : List Query) (s : MCObjectFileInfo)
    (hqs : Query.getEHFrameSection ∉ qs) : execAll qs s = s := by
  induction qs generalizing s with
  | nil => rfl
  | cons q qs ih =>
    have hq : q ≠ .getEHFrameSection := fun h => hqs (h ▸ List.mem_cons_self _ _)
    have hrest : Query.getEHFrameSection ∉ qs := fun h => hqs (List.mem_cons_of_mem _ h)
    show execAll qs (exec q s).state = s
    rw [(exec_const q s hq).1]
    exact ih s hrest

/-! ## The claims about the accessors -/

/-- C1: calling getEHFrameSection twice in succession on the same catalog
returns equal handles, whether or not the EHFrameSection member is set before
the first call. -/
theorem getEHFrameSection_twice_equal (s : MCObjectFileInfo) :
    s.getEHFrameSection.state.getEHFrameSection.ret = s.getEHFrameSection.ret := by
  by_cases hu : s.EHFrameSection = none
  · rw [getEHFrameSection_of_unset s hu]
    rw [getEHFrameSection_of_set s.InitEHFrameSection (by simp [InitEHFrameSection])]
  · rw [getEHFrameSection_of_set s hu, getEHFrameSection_of_set s hu]

/-- C2: getEHFrameSection follows the lazy-field protocol.  When the
EHFrameSection member holds a handle, the call returns that handle, leaves the
catalog as it is and does not invoke InitEHFrameSection.  When the member is
unset, the call invokes InitEHFrameSection exactly once, the catalog after the
call is the one InitEHFrameSection produced, and the returned handle is the
EHFrameSection member of that catalog. -/
theorem getEHFrameSection_lazy_protocol (s : MCObjectFileInfo) :
    match s.EHFrameSection with
    | some h => s.getEHFrameSection = { ret := some h, state := s, ehInits := 0 }
    | none =>
      s.getEHFrameSection.ehInits = 1
        ∧ s.getEHFrameSection.state = s.InitEHFrameSection
        ∧ s.getEHFrameSection.ret = s.getEHFrameSection.state.EHFrameSection := by
  cases hs : s.EHFrameSection with
  | none => simp [getEHFrameSection, hs]
  | some h => simp [getEHFrameSection, hs]

/-- Every const section accessor is a total function that returns exactly the
handle stored in the member of the role it is named after, as a plain value and
with the catalog untouched; it returns the null handle exactly when that member
is unset.  No const accessor is named after EHFrame, and distinct accessors are
named after distinct roles. -/
theorem getter_returns_own_role (g : Getter) (s : MCObjectFileInfo) :
    exec (.getSection g) s = { ret := .handle (field g.role s), state := s, ehInits := 0 }
      ∧ g.run s = field g.role s
      ∧ (g.run s = none ↔ field g.role s = none)
      ∧ g.role ≠ .EHFrame
      ∧ g.role.getter = some g := by
  cases g <;> exact ⟨rfl, rfl, Iff.rfl, by decide, rfl⟩

/-- C3: for every role and every catalog, either the role has a const accessor
named after it, which is total and returns exactly the handle stored for that
role (the null handle exactly when the role is unset, never an error) and
leaves the catalog untouched, or the role is ReadOnly or EHFrame.  ReadOnly, a
role other than EHFrame, has no accessor: on a catalog whose ReadOnlySection
holds section 1 no const accessor returns the handle stored for it. -/
theorem section_accessor_by_role :
    (∀ (r : Role) (s : MCObjectFileInfo),
      match r.getter with
      | some g =>
        g.role = r
          ∧ exec (.getSection g) s
              = { ret := .handle (field r s), state := s, ehInits := 0 }
          ∧ (g.run s = none ↔ field r s = none)
      | none => r = .ReadOnly ∨ r = .EHFrame)
      ∧ Role.ReadOnly ≠ Role.EHFrame
      ∧ Role.ReadOnly.getter = none
      ∧ ∀ g : Getter, g.run readOnlyProbe ≠ field .ReadOnly readOnlyProbe := by
  refine ⟨?_, by decide, rfl, ?_⟩
  · intro r s
    cases r <;> first
      | exact ⟨rfl, rfl, Iff.rfl⟩
      | exact Or.inl rfl
      | exact Or.inr rfl
  · intro g
    cases g <;> decide

/-- C4: getFDEEncoding returns the FDECFIEncoding member when its argument is
true and the FDEEncoding member when its argument is false. -/
theorem getFDEEncoding_selects (s : MCObjectFileInfo) :
    s.getFDEEncoding true = s.FDECFIEncoding ∧ s.getFDEEncoding false = s.FDEEncoding ∧
      ∀ CFI : Bool,
        s.getFDEEncoding CFI = (if CFI = true then s.FDECFIEncoding else s.FDEEncoding) :=
  ⟨rfl, rfl, fun _ => rfl⟩

/-- C5: every accessor other than getEHFrameSection (the three ABI-flag
accessors, the four encoding accessors and the const section accessors) leaves
the whole catalog unchanged, the EHFrameSection member and the context
included, and does not invoke InitEHFrameSection. -/
theorem const_accessors_frame (q : Query) (s : MCObjectFileInfo)
    (hq : q ≠ .getEHFrameSection) :
    (exec q s).state = s ∧ (exec q s).ehInits = 0
      ∧ (exec q s).state.EHFrameSection = s.EHFrameSection
      ∧ (exec q s).state.Ctx = s.Ctx := by
  obtain ⟨h1, h2⟩ := exec_const q s hq
  exact ⟨h1, h2, by rw [h1], by rw [h1]⟩

/-- Witness for C5: a const section accessor on a catalog whose EHFrameSection
member is unset. -/
theorem const_accessors_frame_witness :
    Query.getSection .getTextSection ≠ Query.getEHFrameSection
      ∧ textOnlyCatalog.EHFrameSection = none
      ∧ ((exec (.getSection .getTextSection) textOnlyCatalog).state = textOnlyCatalog
        ∧ (exec (.getSection .getTextSection) textOnlyCatalog).ehInits = 0
        ∧ (exec (.getSection .getTextSection) textOnlyCatalog).state.EHFrameSection
            = textOnlyCatalog.EHFrameSection
        ∧ (exec (.getSection .getTextSection) textOnlyCatalog).state.Ctx = textOnlyCatalog.Ctx) :=
  ⟨by decide, rfl, const_accessors_frame _ textOnlyCatalog (by decide)⟩

/-- C6: no role is overwritten by queries.  For every catalog and every finite
sequence of accessor calls, getEHFrameSection included, a role that holds a
handle before the sequence holds the same handle after it. -/
theorem set_roles_never_overwritten (qs : List Query) (s : MCObjectFileInfo) (r : Role)
    (h : MCSection) (hset : field r s = some h) : field r (execAll qs s) = some h := by
  induction qs generalizing s with
  | nil => exact hset
  | cons q qs ih => exact ih (exec q s).state (field_exec_of_set q s r h hset)

/-- Witness for C6: TextSection survives a sequence of queries that constructs
the EH frame section. -/
theorem set_roles_never_overwritten_witness :
    field .Text textOnlyCatalog = some 3
      ∧ field .Text (execAll [.getEHFrameSection, .getSection .getTextSection,
          .getFDEEncoding true, .getEHFrameSection] textOnlyCatalog) = some 3 :=
  ⟨rfl, set_roles_never_overwritten _ textOnlyCatalog .Text 3 rfl⟩

/-- C9: ReadOnlySection has no public accessor.  On a catalog whose
ReadOnlySection holds section 1 and whose other section members hold section 0,
no public accessor returns the handle stored for ReadOnly; the roles without a
const accessor are exactly ReadOnly and EHFrame, and EHFrame has the accessor
getEHFrameSection. -/
theorem readOnly_has_no_accessor :
    field .ReadOnly readOnlyProbe = some 1
      ∧ (∀ q : Query, (exec q readOnlyProbe).ret ≠ .handle (some 1))
      ∧ Role.all.filter (fun r => r.getter.isNone) = [.ReadOnly, .EHFrame]
      ∧ (exec .getEHFrameSection readOnlyProbe).ret
          = .handle (field .EHFrame readOnlyProbe) := by
  refine ⟨rfl, ?_, by decide, rfl⟩
  intro q
  cases q with
  | getSection g => cases g <;> decide
  | getFDEEncoding CFI => cases CFI <;> decide
  | _ => decide

/-- C10: the role table has 52 roles: nine common roles (Text, Data, BSS,
ReadOnly, StaticCtor, StaticDtor, LSDA, CompactUnwind, EHFrame), eleven
Dwarf-debug roles, four Dwarf-accelerator-table roles, two TLS roles plus one
TLS-extra role, seven ELF-only roles, fifteen MachO-only roles and three
COFF-only roles. -/
theorem role_table_breakdown :
    rolesIn .common = [.Text, .Data, .BSS, .ReadOnly, .StaticCtor, .StaticDtor, .LSDA,
        .CompactUnwind, .EHFrame]
      ∧ roleCount .dwarfDebug = 11 ∧ roleCount .dwarfAccel = 4
      ∧ roleCount .tls = 2 ∧ roleCount .tlsExtra = 1
      ∧ roleCount .elfOnly = 7 ∧ roleCount .machoOnly = 15 ∧ roleCount .coffOnly = 3
      ∧ Role.all.length = 52 ∧ Role.all.Nodup ∧ ∀ r : Role, r ∈ Role.all := by
  refine ⟨by decide, by decide, by decide, by decide, by decide, by decide, by decide,
    by decide, by decide, by decide, ?_⟩
  intro r
  cases r <;> decide

/-- Counterexample for C10: the breakdown with seven Dwarf-debug, six ELF-only
and sixteen MachO-only roles is not the one of the role table. -/
theorem role_table_breakdown_counterexample :
    ¬ (roleCount .common = 9 ∧ roleCount .dwarfDebug = 7 ∧ roleCount .dwarfAccel = 4
      ∧ roleCount .tls = 2 ∧ roleCount .tlsExtra = 1
      ∧ roleCount .elfOnly = 6 ∧ roleCount .machoOnly = 16 ∧ roleCount .coffOnly = 3) := by
  decide

/-! ## Lemmas on the modelled initialisation -/

namespace MCObjectFileInfo

theorem field_setField (r q : Role) (h : SectionHandle) (s : MCObjectFileInfo) :
    field r (setField q h s) = if r = q then h else field r s := by
  cases q <;> cases r <;> rfl

theorem field_define (r q : Role) (s : MCObjectFileInfo) :
    field r (s.define q) =
      if r = q then some (s.Ctx.getSection { family := s.Env, role := q }).1 else field r s := by
  unfold define
  rw [field_setField]
  by_cases hrq : r = q
  · simp [hrq]
  · simp only [hrq, if_false]
    cases r <;> rfl

theorem field_defineAll_of_not_mem (r : Role) (rs : List Role) (s : MCObjectFileInfo)
    (hr : r ∉ rs) : field r (s.defineAll rs) = field r s := by
  induction rs generalizing s with
  | nil => rfl
  | cons q rs ih =>
    have hq : r ≠ q := fun h => hr (h ▸ List.mem_cons_self _ _)
    have hrest : r ∉ rs := fun h => hr (List.mem_cons_of_mem _ h)
    show field r ((s.define q).defineAll rs) = field r s
    rw [ih (s.define q) hrest, field_define, if_neg hq]

theorem field_defineAll_isSome (r : Role) (rs : List Role) (s : MCObjectFileInfo)
    (hr : r ∈ rs ∨ (field r s).isSome = true) : (field r (s.defineAll rs)).isSome = true := by
  induction rs generalizing s with
  | nil =>
    rcases hr with hr | hr
    · cases hr
    · exact hr
  | cons q rs ih =>
    show (field r ((s.define q).defineAll rs)).isSome = true
    apply ih
    by_cases hrq : r = q
    · right
      rw [field_define, if_pos hrq]
      rfl
    · rcases hr with hr | hr
      · left
        rcases List.mem_cons.mp hr with h | h
        · exact absurd h hrq
        · exact h
      · right
        rw [field_define, if_neg hrq]
        exact hr

theorem field_uniform (r : Role) (h : SectionHandle) (enc : EncodingSet) (env : Environment)
    (RM : Reloc.Model) (CM : CodeModel.Model) (ctx : MCContext) :
    field r ((uniform h env RM CM ctx).withEncodings enc) = h := by
  cases r <;> rfl

theorem field_InitMachO (r : Role) (T : Triple) (s : MCObjectFileInfo) :
    field r (s.InitMachOMCObjectFileInfo T) = field r (s.defineAll (machORoles T)) := by
  cases r <;> rfl

theorem field_InitELF (r : Role) (T : Triple) (s : MCObjectFileInfo) :
    field r (s.InitELFMCObjectFileInfo T) = field r (s.defineAll elfRoles) := by
  cases r <;> rfl

theorem field_InitCOFF (r : Role) (P : EncodingPolicy) (T : Triple) (s : MCObjectFileInfo) :
    field r (s.InitCOFFMCObjectFileInfo P T) = field r (s.defineAll coffRoles) := by
  cases r <;> rfl

end MCObjectFileInfo

/-- The lists of populated roles and the two classifications of roles depend
on a triple only through its two capability answers.  A role is in the list of
a family exactly when it is defined for the family, and a role that belongs
only to other families is not defined for the family. -/
theorem roles_classified (tls cu : Bool) (r : Role) :
    ((definedFor ⟨none, tls, cu⟩ .IsMachO r = true → r ∈ machORoles ⟨none, tls, cu⟩)
      ∧ (definedFor ⟨none, tls, cu⟩ .IsELF r = true → r ∈ elfRoles)
      ∧ (definedFor ⟨none, tls, cu⟩ .IsCOFF r = true → r ∈ coffRoles))
    ∧ ((definedFor ⟨none, tls, cu⟩ .IsMachO r = false
          → r ∉ machORoles ⟨none, tls, cu⟩)
      ∧ (definedFor ⟨none, tls, cu⟩ .IsELF r = false → r ∉ elfRoles)
      ∧ (definedFor ⟨none, tls, cu⟩ .IsCOFF r = false → r ∉ coffRoles))
    ∧ ((foreignTo .IsMachO r = true → definedFor ⟨none, tls, cu⟩ .IsMachO r = false)
      ∧ (foreignTo .IsELF r = true → definedFor ⟨none, tls, cu⟩ .IsELF r = false)
      ∧ (foreignTo .IsCOFF r = true → definedFor ⟨none, tls, cu⟩ .IsCOFF r = false)) := by
  cases tls <;> cases cu <;> cases r <;> decide

theorem mem_roles_of_definedFor (T : Triple) (r : Role) :
    (definedFor T .IsMachO r = true → r ∈ machORoles T)
      ∧ (definedFor T .IsELF r = true → r ∈ elfRoles)
      ∧ (definedFor T .IsCOFF r = true → r ∈ coffRoles) := by
  rcases T with ⟨fmt, tls, cu⟩
  exact (roles_classified tls cu r).1

theorem not_mem_roles_of_not_definedFor (T : Triple) (r : Role) :
    (definedFor T .IsMachO r = false → r ∉ machORoles T)
      ∧ (definedFor T .IsELF r = false → r ∉ elfRoles)
      ∧ (definedFor T .IsCOFF r = false → r ∉ coffRoles) := by
  rcases T with ⟨fmt, tls, cu⟩
  exact (roles_classified tls cu r).2.1

theorem not_definedFor_of_foreignTo (T : Triple) (env : Environment) (r : Role)
    (h : foreignTo env r = true) : definedFor T env r = false := by
  rcases T with ⟨fmt, tls, cu⟩
  cases env with
  | IsMachO => exact (roles_classified tls cu r).2.2.1 h
  | IsELF => exact (roles_classified tls cu r).2.2.2.1 h
  | IsCOFF => exact (roles_classified tls cu r).2.2.2.2 h

namespace MCObjectFileInfo

theorem Env_define (q : Role) (s : MCObjectFileInfo) : (s.define q).Env = s.Env := by
  cases q <;> rfl

theorem Env_defineAll (rs : List Role) (s : MCObjectFileInfo) :
    (s.defineAll rs).Env = s.Env := by
  induction rs generalizing s with
  | nil => rfl
  | cons q rs ih =>
    show ((s.define q).defineAll rs).Env = s.Env
    rw [ih, Env_define]

/-- What the modelled initialisation yields for a recognised object format: a
catalog of that family whose roles are those of the list the family populates,
set on top of an all-unset table, whatever catalog it is called on. -/
theorem InitMCObjectFileInfo_ok (self : MCObjectFileInfo) (P : EncodingPolicy) (TT : Triple)
    (RM : Reloc.Model) (CM : CodeModel.Model) (ctx : MCContext) (env : Environment)
    (hfmt : TT.objectFormat = some env) :
    ∃ s rs, self.InitMCObjectFileInfo P TT RM CM ctx = .ok s
      ∧ (∀ other : MCObjectFileInfo, other.InitMCObjectFileInfo P TT RM CM ctx = .ok s)
      ∧ s.Env = env
      ∧ rs = (match env with
          | .IsMachO => machORoles TT
          | .IsELF => elfRoles
          | .IsCOFF => coffRoles)
      ∧ ∀ r, field r s =
          field r
            (((uniform none env RM CM ctx).withEncodings (P.encodings env RM)).defineAll rs) := by
  cases env with
  | IsMachO =>
    refine ⟨_, _, by simp only [InitMCObjectFileInfo, hfmt],
      fun _ => by simp only [InitMCObjectFileInfo, hfmt], ?_, rfl,
      fun r => field_InitMachO r TT _⟩
    exact Env_defineAll _ _
  | IsELF =>
    refine ⟨_, _, by simp only [InitMCObjectFileInfo, hfmt],
      fun _ => by simp only [InitMCObjectFileInfo, hfmt], ?_, rfl,
      fun r => field_InitELF r TT _⟩
    exact Env_defineAll _ _
  | IsCOFF =>
    refine ⟨_, _, by simp only [InitMCObjectFileInfo, hfmt],
      fun _ => by simp only [InitMCObjectFileInfo, hfmt], ?_, rfl,
      fun r => field_InitCOFF r P TT _⟩
    exact Env_defineAll _ _

end MCObjectFileInfo

/-! ## The claims about initialisation -/

/-- C7: for every triple with a recognised object format, every relocation
model and every code model, initialising a catalog returns a catalog of the
family of the triple in which every role defined for that family holds a handle
(Text, Data and BSS among them in all three families), every role that belongs
only to other families is unset, as is every other role not defined for the
family, and the EHFrameSection member is unset and stays unset under every
sequence of queries without getEHFrameSection, while the first
getEHFrameSection returns a handle. -/
theorem initialize_populates_family (self : MCObjectFileInfo) (P : EncodingPolicy)
    (TT : Triple) (RM : Reloc.Model) (CM : CodeModel.Model) (ctx : MCContext)
    (env : Environment) (hfmt : TT.objectFormat = some env) :
    ∃ s, self.InitMCObjectFileInfo P TT RM CM ctx = .ok s
      ∧ s.Env = env
      ∧ (∀ r, definedFor TT env r = true → field r s ≠ none)
      ∧ (field .Text s ≠ none ∧ field .Data s ≠ none ∧ field .BSS s ≠ none)
      ∧ (∀ r, foreignTo env r = true → field r s = none)
      ∧ (∀ r, definedFor TT env r = false → field r s = none)
      ∧ s.EHFrameSection = none
      ∧ (∀ qs, Query.getEHFrameSection ∉ qs → (execAll qs s).EHFrameSection = none)
      ∧ s.getEHFrameSection.ret ≠ none := by
  obtain ⟨s, rs, hok, _, henv, hrs, hfield⟩ :=
    InitMCObjectFileInfo_ok self P TT RM CM ctx env hfmt
  have hdef : ∀ r, definedFor TT env r = true → r ∈ rs := by
    intro r hr
    cases env with
    | IsMachO => exact hrs ▸ (mem_roles_of_definedFor TT r).1 hr
    | IsELF => exact hrs ▸ (mem_roles_of_definedFor TT r).2.1 hr
    | IsCOFF => exact hrs ▸ (mem_roles_of_definedFor TT r).2.2 hr
  have hnot : ∀ r, definedFor TT env r = false → r ∉ rs := by
    intro r hr
    cases env with
    | IsMachO => exact hrs ▸ (not_mem_roles_of_not_definedFor TT r).1 hr
    | IsELF => exact hrs ▸ (not_mem_roles_of_not_definedFor TT r).2.1 hr
    | IsCOFF => exact hrs ▸ (not_mem_roles_of_not_definedFor TT r).2.2 hr
  have hset : ∀ r, r ∈ rs → field r s ≠ none := by
    intro r hr hnone
    have h := field_defineAll_isSome r rs
      ((uniform none env RM CM ctx).withEncodings (P.encodings env RM)) (Or.inl hr)
    rw [← hfield r, hnone] at h
    cases h
  have hunset : ∀ r, r ∉ rs → field r s = none := by
    intro r hr
    rw [hfield r, field_defineAll_of_not_mem r rs _ hr, field_uniform]
  have hT : definedFor TT env .Text = true := by cases env <;> rfl
  have hD : definedFor TT env .Data = true := by cases env <;> rfl
  have hB : definedFor TT env .BSS = true := by cases env <;> rfl
  have hE : definedFor TT env .EHFrame = false := by cases env <;> rfl
  have hehs : s.EHFrameSection = none := hunset .EHFrame (hnot _ hE)
  refine ⟨s, hok, henv, fun r hr => hset r (hdef r hr),
    ⟨hset _ (hdef _ hT), hset _ (hdef _ hD), hset _ (hdef _ hB)⟩,
    fun r hr => hunset r (hnot r (not_definedFor_of_foreignTo TT env r hr)),
    fun r hr => hunset r (hnot r hr), hehs, ?_, ?_⟩
  · intro qs hqs
    rw [execAll_of_const qs s hqs]
    exact hehs
  · rw [getEHFrameSection_of_unset s hehs]
    simp [InitEHFrameSection]

/-- Witness for C7: an ELF triple with the position-independent relocation
model and the small code model. -/
theorem initialize_populates_family_witness :
    elfTriple.objectFormat = some .IsELF
      ∧ ∃ s,
        textOnlyCatalog.InitMCObjectFileInfo zeroPolicy elfTriple .PIC .Small
            { interned := [] } = .ok s
        ∧ s.Env = .IsELF
        ∧ (∀ r, definedFor elfTriple .IsELF r = true → field r s ≠ none)
        ∧ (field .Text s ≠ none ∧ field .Data s ≠ none ∧ field .BSS s ≠ none)
        ∧ (∀ r, foreignTo .IsELF r = true → field r s = none)
        ∧ (∀ r, definedFor elfTriple .IsELF r = false → field r s = none)
        ∧ s.EHFrameSection = none
        ∧ (∀ qs, Query.getEHFrameSection ∉ qs → (execAll qs s).EHFrameSection = none)
        ∧ s.getEHFrameSection.ret ≠ none :=
  ⟨rfl,
    initialize_populates_family textOnlyCatalog zeroPolicy elfTriple .PIC .Small
      { interned := [] } .IsELF rfl⟩

end llvm
